import Mathlib

/-!
Shallow embedding of the `esb-branding-tool` repository
(`tools/branding/branding.py`, `tools/branding/generate.py`,
`tools/branding/update_lock.py`) and proofs about it.

Strings are Lean `String`s (lists of characters); Python dicts are
association lists with last-write-wins insertion; the filesystem, where an
operation reads or writes files, is passed explicitly as an association
list from path to content.  Fallible Python functions (those raising
`BrandingError` / `LockError`) return `Except String`.
-/

deriving instance DecidableEq for Except

/-! ## Shared string helpers (Python `str` methods) -/

/-- Characters treated as whitespace by Python `str.strip()` (ASCII range). -/
def pyIsSpace (c : Char) : Bool :=
  c == ' ' || c == '\t' || c == '\n' || c == '\x0d' || c == '\x0b' || c == '\x0c'

/-- Python `str.strip()` on a character list: drop the leading and the
trailing run of whitespace. -/
def pyStripL (l : List Char) : List Char :=
  List.rdropWhile pyIsSpace (l.dropWhile pyIsSpace)

/-- Python `str.strip()`. -/
def pyStrip (s : String) : String := ⟨pyStripL s.data⟩

/-- Python `str.startswith` (structural, kernel-reducible). -/
def pyStartsWith (s pre : String) : Bool := pre.data.isPrefixOf s.data

/-- Python dict lookup (`d.get(k)`). -/
def dictGet (d : List (String × String)) (k : String) : Option String :=
  (d.find? (fun p => p.1 == k)).map (fun p => p.2)

/-- Python dict insertion (`d[k] = v`): replace in place or append. -/
def dictInsert (d : List (String × String)) (k v : String) : List (String × String) :=
  if d.any (fun p => p.1 == k) then
    d.map (fun p => if p.1 == k then (k, v) else p)
  else d ++ [(k, v)]

/-! ## `tools/branding/branding.py` -/

/-- Characters matched by the regex class `[a-z0-9]`. -/
def isSlugChar (c : Char) : Bool :=
  ('a' ≤ c && c ≤ 'z') || ('0' ≤ c && c ≤ '9')

/-- `re.sub(r"[^a-z0-9]+", "-", ·)`: replace each maximal run of
characters outside `[a-z0-9]` by a single hyphen.  Folded from the right:
within a run of non-slug characters only the last one emits a hyphen, the
earlier ones merge into it, so each maximal run contributes exactly one
hyphen. -/
def collapseNonSlug : List Char → List Char
  | [] => []
  | c :: rest =>
    let r := collapseNonSlug rest
    if isSlugChar c then c :: r
    else if r.head? == some '-' then r else '-' :: r

/-- Python `.strip("-")`. -/
def stripDashes (l : List Char) : List Char :=
  List.rdropWhile (fun c => c == '-') (l.dropWhile (fun c => c == '-'))

/-- Python `str.lower()` (character-wise). -/
def pyLower (l : List Char) : List Char := l.map Char.toLower

/-- `branding._normalize_slug`. -/
def _normalize_slug (value : String) : Except String String :=
  let cleaned := stripDashes (collapseNonSlug (pyLower (pyStripL value.data)))
  if cleaned.isEmpty then
    .error "brand must include at least one alphanumeric character"
  else .ok ⟨cleaned⟩

/-- The fixed-key `paths` mapping built by `derive_branding`. -/
structure BrandingPaths where
  home_dir : String
  output_dir : String
  staging_dir : String
deriving DecidableEq, Repr

/-- The fixed-key `root_ca` mapping built by `derive_branding`. -/
structure BrandingRootCA where
  secret_id : String
  cert_filename : String
deriving DecidableEq, Repr

/-- The fixed-key `runtime` mapping built by `derive_branding`
(`namespace` is a Lean keyword, hence the trailing underscore). -/
structure BrandingRuntime where
  container_prefix : String
  namespace_ : String
  cni_name : String
  cni_bridge : String
  cni_dir : String
  resolv_conf_path : String
  label_env : String
  label_function : String
  label_created_by : String
  label_created_by_value : String
  cgroup_parent : String
  cgroup_leaf : String
deriving DecidableEq, Repr

/-- `branding.Branding` (frozen dataclass). -/
structure Branding where
  cli_name : String
  slug : String
  env_prefix : String
  label_prefix : String
  paths : BrandingPaths
  root_ca : BrandingRootCA
  runtime : BrandingRuntime
deriving DecidableEq, Repr

/-- `branding.build_context`. -/
def build_context (branding : Branding) : List (String × String) :=
  let env_prefix_var := "$\x7b" ++ branding.env_prefix
  [ ("CLI_NAME", branding.cli_name),
    ("SLUG", branding.slug),
    ("ENV_PREFIX", branding.env_prefix),
    ("ENV_PREFIX_VAR", env_prefix_var),
    ("LABEL_PREFIX", branding.label_prefix),
    ("HOME_DIR", branding.paths.home_dir),
    ("OUTPUT_DIR", branding.paths.output_dir),
    ("STAGING_DIR", branding.paths.staging_dir),
    ("ROOT_CA_MOUNT_ID", branding.root_ca.secret_id),
    ("ROOT_CA_CERT_FILENAME", branding.root_ca.cert_filename),
    ("RUNTIME_CONTAINER_PREFIX", branding.runtime.container_prefix),
    ("RUNTIME_NAMESPACE", branding.runtime.namespace_),
    ("RUNTIME_CNI_NAME", branding.runtime.cni_name),
    ("RUNTIME_CNI_BRIDGE", branding.runtime.cni_bridge),
    ("RUNTIME_CNI_DIR", branding.runtime.cni_dir),
    ("RUNTIME_RESOLV_CONF_PATH", branding.runtime.resolv_conf_path),
    ("RUNTIME_LABEL_ENV", branding.runtime.label_env),
    ("RUNTIME_LABEL_FUNCTION", branding.runtime.label_function),
    ("RUNTIME_LABEL_CREATED_BY", branding.runtime.label_created_by),
    ("RUNTIME_LABEL_CREATED_BY_VALUE", branding.runtime.label_created_by_value),
    ("RUNTIME_CGROUP_PARENT", branding.runtime.cgroup_parent),
    ("RUNTIME_CGROUP_LEAF", branding.runtime.cgroup_leaf) ]

/-! ## `tools/branding/generate.py`

File contents are modelled as lists of lines (`splitlines` happens at the
I/O boundary); an absent file is `none`.  The target-file area of the
filesystem is an association list from path to content. -/

/-- Python `s.split(sep, 1)[1]` when `sep` occurs: everything after the
first occurrence. -/
def afterFirst (sep : Char) (l : List Char) : List Char :=
  (l.dropWhile (fun c => c != sep)).drop 1

/-- Python `s.split(sep, 1)[0]`: everything before the first occurrence
(the whole list when `sep` is absent). -/
def beforeFirst (sep : Char) (l : List Char) : List Char :=
  l.takeWhile (fun c => c != sep)

namespace Generate

/-- Character-list core of `generate._strip_quotes`: if the first and the
last character are the same quote, drop both and Python-`.strip()` the
inner text (note the extra `.strip()`, absent from the `update_lock.py`
variant); otherwise return the list unchanged. -/
def stripQuotesL : List Char → List Char
  | [] => []
  | c :: rest =>
    if rest.getLast? == some c && (c == '\x27' || c == '"') then pyStripL rest.dropLast
    else c :: rest

/-- `generate._strip_quotes`. -/
def _strip_quotes (value : String) : String :=
  if value.length < 2 then value
  else ⟨stripQuotesL value.data⟩

/-- `generate._strip_inline_comment`. -/
def _strip_inline_comment (value : String) : String :=
  if value == "" then value
  else
    match value.data with
    | [] => value
    | c :: rest =>
      if c == '\x27' || c == '"' then
        match rest.findIdx? (fun d => d == c) with
        | some i => ⟨(c :: rest).take (i + 2)⟩
        | none => value
      else pyStrip ⟨(c :: rest).takeWhile (fun d => d != '#')⟩

/-- The value the config-file scan of `load_brand_from_config` extracts
from one line, or `""` when the line is skipped or has an empty value. -/
def brandLineValue (line : String) : String :=
  let stripped := pyStrip line
  if stripped == "" || pyStartsWith stripped "#" || !pyStartsWith stripped "brand:" then ""
  else _strip_quotes (_strip_inline_comment (pyStrip ⟨afterFirst ':' stripped.data⟩))

/-- The loop body of `generate.load_brand_from_config` over the lines of
an existing config file. -/
def loadBrandLines : List String → Except String (Option String)
  | [] => .error "config/branding.yaml missing \x27brand\x27 value"
  | line :: rest =>
    let stripped := pyStrip line
    if stripped == "" || pyStartsWith stripped "#" then loadBrandLines rest
    else if !pyStartsWith stripped "brand:" then loadBrandLines rest
    else
      let value := _strip_quotes (_strip_inline_comment (pyStrip ⟨afterFirst ':' stripped.data⟩))
      if value != "" then .ok (some value)
      else .error "config/branding.yaml missing \x27brand\x27 value"

/-- `generate.load_brand_from_config` (`none` = file absent). -/
def load_brand_from_config (file : Option (List String)) : Except String (Option String) :=
  match file with
  | none => .ok none
  | some lines => loadBrandLines lines

/-- `generate.resolve_brand`.  The source never writes the config file
(the `DO NOT auto-update` / `DO NOT auto-create` branches are no-ops), so
the returned file state is the input file state. -/
def resolve_brand (brand : Option String) (configFile : Option (List String)) (check : Bool) :
    Except String (String × Option (List String)) := do
  let config_brand ← load_brand_from_config configFile
  let cb := config_brand.getD ""
  let brand_value := pyStrip (brand.getD "")
  if brand_value != "" then
    if cb != "" && cb != brand_value then
      if check then
        .error ("brand mismatch for --check (config=" ++ cb ++ ", requested=" ++ brand_value ++ ")")
      else .ok (brand_value, configFile)
    else .ok (brand_value, configFile)
  else
    if cb != "" then .ok (cb, configFile)
    else .error "brand is required (use --brand or set config/branding.yaml)"

/-- One line of `generate.load_esb_info`: the key/value pair it stores,
or `none` when the line is blank, a comment, has no `=`, or has an empty
key or value after trimming. -/
def parseInfoLine? (line : String) : Option (String × String) :=
  let stripped := pyStrip line
  if stripped == "" || pyStartsWith stripped "#" || !(stripped.data.contains '=') then none
  else
    let key := pyStrip ⟨beforeFirst '=' stripped.data⟩
    let value := pyStrip ⟨afterFirst '=' stripped.data⟩
    if key != "" && value != "" then some (key, value) else none

/-- `generate.load_esb_info` (`none` = file absent, which yields the
empty record, not an error). -/
def load_esb_info (file : Option (List String)) : List (String × String) :=
  match file with
  | none => []
  | some lines =>
    lines.foldl
      (fun d line =>
        match parseInfoLine? line with
        | some (k, v) => dictInsert d k v
        | none => d)
      []

/-- Characters of the regex class `[0-9a-fA-F]`. -/
def isHexChar (c : Char) : Bool :=
  ('0' ≤ c && c ≤ '9') || ('a' ≤ c && c ≤ 'f') || ('A' ≤ c && c ≤ 'F')

/-- `generate.normalize_esb_base`: classify a base reference as a commit
(7–40 hex characters) or a tag. -/
def normalize_esb_base (value : String) : String × String :=
  let v := pyStrip value
  if 7 ≤ v.length && v.length ≤ 40 && v.data.all isHexChar then ("ESB_BASE_COMMIT", v)
  else ("ESB_BASE_TAG", v)

/-- `generate.has_esb_base` (Python truthiness of `get(...) or get(...)`). -/
def has_esb_base (info : List (String × String)) : Bool :=
  (dictGet info "ESB_BASE_COMMIT").getD "" != "" || (dictGet info "ESB_BASE_TAG").getD "" != ""

/-- Observable outcome of `generate.ensure_esb_info`: which branch
returned, and what `write_esb_info` call (if any) was made. -/
inductive InfoAction where
  | skipped
  | warned
  | noop
  | wrote (key value : String)
deriving DecidableEq, Repr

/-- `generate.ensure_esb_info` over the info-file contents. -/
def ensure_esb_info (file : Option (List String)) (brand : String) (esb_base : Option String)
    (check : Bool) (force : Bool) : Except String InfoAction :=
  if brand == "esb" then .ok .skipped
  else
    let info := load_esb_info file
    if info.isEmpty then
      if esb_base.getD "" == "" then
        if force then .ok .warned
        else .error ".esb-info missing (use --esb-base to create it)"
      else if check then .error ".esb-info missing for --check (rerun without --check)"
      else
        let kv := normalize_esb_base (esb_base.getD "")
        .ok (.wrote kv.1 kv.2)
    else if !has_esb_base info then .error ".esb-info missing ESB base entry"
    else if esb_base.getD "" != "" then
      let kv := normalize_esb_base (esb_base.getD "")
      let existing := (dictGet info kv.1).getD ""
      if existing != "" then
        if existing != kv.2 then
          if check then .error (".esb-info mismatch for " ++ kv.1 ++ " (expected " ++ existing ++ ")")
          else .ok (.wrote kv.1 kv.2)
        else .ok .noop
      else
        if check then .error (".esb-info missing " ++ kv.1 ++ " (rerun without --check)")
        else .ok (.wrote kv.1 kv.2)
    else .ok .noop

end Generate

namespace Generate

/-- Characters matched by the regex class `[A-Z0-9_]` of `_PLACEHOLDER_RE`. -/
def isNameChar (c : Char) : Bool :=
  ('A' ≤ c && c ≤ 'Z') || ('0' ≤ c && c ≤ '9') || c == '_'

/-- Match the regex `_PLACEHOLDER_RE` at the head of the list: two open
braces, optional whitespace, a non-empty `[A-Z0-9_]` name, optional
whitespace, two close braces.  The character classes involved are
pairwise disjoint, so greedy maximal-munch is exact.  Returns the
captured name and the remainder after the match. -/
def matchPlaceholder (l : List Char) : Option (String × List Char) :=
  match l with
  | a :: b :: rest =>
    if a == '{' && b == '{' then
      let afterWs := rest.dropWhile pyIsSpace
      let name := afterWs.takeWhile isNameChar
      let afterName := afterWs.dropWhile isNameChar
      if name.isEmpty then none
      else
        match afterName.dropWhile pyIsSpace with
        | c :: d :: rest2 => if c == '}' && d == '}' then some (⟨name⟩, rest2) else none
        | _ => none
    else none
  | _ => none

/-- The substitution pass of `generate.render_string`
(`_PLACEHOLDER_RE.sub(replace, template)`) with explicit fuel (each step
consumes at least one character, so any fuel of at least the list length
is enough): scan left to right, replace each match by the context value,
fail on a name absent from the context. -/
def renderCharsF (context : List (String × String)) : Nat → List Char → Except String (List Char)
  | _, [] => .ok []
  | 0, l => .ok l
  | fuel + 1, c :: rest =>
    match matchPlaceholder (c :: rest) with
    | some (name, rest2) =>
      match dictGet context name with
      | none => .error ("unknown template key: " ++ name)
      | some v => Except.map (fun out => v.data ++ out) (renderCharsF context fuel rest2)
    | none => Except.map (fun out => c :: out) (renderCharsF context fuel rest)

/-- The substitution pass at adequate fuel. -/
def renderChars (context : List (String × String)) (l : List Char) : Except String (List Char) :=
  renderCharsF context l.length l

/-- Specification-side total substitution: like `renderChars` but a
missing name substitutes the empty string instead of failing (only used
under the hypothesis that no name is missing). -/
def substAllF (context : List (String × String)) : Nat → List Char → List Char
  | _, [] => []
  | 0, l => l
  | fuel + 1, c :: rest =>
    match matchPlaceholder (c :: rest) with
    | some (name, rest2) => ((dictGet context name).getD "").data ++ substAllF context fuel rest2
    | none => c :: substAllF context fuel rest

/-- Total substitution at adequate fuel. -/
def substAll (context : List (String × String)) (l : List Char) : List Char :=
  substAllF context l.length l

/-- Specification-side scan: the first matched placeholder name absent
from the context, in the left-to-right substitution order. -/
def firstMissingF (context : List (String × String)) : Nat → List Char → Option String
  | _, [] => none
  | 0, _ => none
  | fuel + 1, c :: rest =>
    match matchPlaceholder (c :: rest) with
    | some (name, rest2) =>
      if (dictGet context name).isNone then some name else firstMissingF context fuel rest2
    | none => firstMissingF context fuel rest

/-- The first missing placeholder name at adequate fuel. -/
def firstMissing (context : List (String × String)) (l : List Char) : Option String :=
  firstMissingF context l.length l

/-- `_PLACEHOLDER_RE.search(·) is not None`: some suffix starts with a
placeholder match. -/
def containsPlaceholder : List Char → Bool
  | [] => false
  | c :: rest => (matchPlaceholder (c :: rest)).isSome || containsPlaceholder rest

/-- `generate.render_string`. -/
def render_string (template : String) (context : List (String × String)) :
    Except String String :=
  match renderChars context template.data with
  | .error e => .error e
  | .ok out =>
    if containsPlaceholder out then .error "unresolved template placeholders detected"
    else .ok ⟨out⟩

/-- `generate.TemplateSpec`. -/
structure TemplateSpec where
  template : String
  target : String
deriving DecidableEq, Repr

/-- `generate.render_templates`.  `tmplRead` is the external capability
reading a template body; `fs` is the target-file area of the filesystem
(path to content); the result pairs the mismatch list with the filesystem
after the run.  The `strip_header` branch of the source (defaulted off and
declared out of core scope by the spec) is not modelled. -/
def render_templates (tmplRead : String → String) (specs : List TemplateSpec)
    (context : List (String × String)) (check : Bool) (fs : List (String × String)) :
    Except String (List String × List (String × String)) :=
  match specs with
  | [] => .ok ([], fs)
  | spec :: rest => do
    let targetPath ← render_string spec.target context
    let rendered ← render_string (tmplRead spec.template) context
    if check then
      match dictGet fs targetPath with
      | none =>
        let r ← render_templates tmplRead rest context check fs
        .ok (targetPath :: r.1, r.2)
      | some existing =>
        if existing != rendered then
          let r ← render_templates tmplRead rest context check fs
          .ok (targetPath :: r.1, r.2)
        else
          render_templates tmplRead rest context check fs
    else
      render_templates tmplRead rest context check (dictInsert fs targetPath rendered)

end Generate

/-! ## `tools/branding/update_lock.py` -/

namespace UpdateLock

/-- Character-list core of `update_lock._strip_quotes`: if the first and
the last character are the same quote, drop exactly those two characters;
otherwise return the list unchanged. -/
def stripQuotesL : List Char → List Char
  | [] => []
  | c :: rest =>
    if rest.getLast? == some c && (c == '"' || c == '\x27') then rest.dropLast
    else c :: rest

/-- `update_lock._strip_quotes`. -/
def _strip_quotes (value : String) : String :=
  if value.length ≥ 2 then ⟨stripQuotesL value.data⟩ else value

/-- The seven keys compared by `update_lock._equivalent_lock`. -/
def lockKeys : List String :=
  ["schema_version", "tool.commit", "tool.ref", "source.esb_repo",
   "source.esb_commit", "source.esb_ref", "parameters.brand"]

/-- Python `d.get(key) or None`: a missing key and an empty-string value
normalize to the same `none` sentinel. -/
def normGet (d : List (String × String)) (k : String) : Option String :=
  match dictGet d k with
  | none => none
  | some v => if v == "" then none else some v

/-- `update_lock._equivalent_lock`. -/
def _equivalent_lock (existing new_data : List (String × String)) : Bool :=
  lockKeys.all (fun k => normGet existing k == normGet new_data k)

end UpdateLock

/-! ## Specification-side auxiliary definitions -/

namespace Generate

/-- Specification-side characterization of the check-mode mismatch list:
one entry per spec whose (successfully rendered) target is absent from the
filesystem or differs byte-for-byte from the rendered output, in spec
order. -/
def checkMismatches (tmplRead : String → String) (specs : List TemplateSpec)
    (context : List (String × String)) (fs : List (String × String)) : List String :=
  specs.filterMap (fun spec =>
    match render_string spec.target context, render_string (tmplRead spec.template) context with
    | .ok targetPath, .ok rendered =>
      match dictGet fs targetPath with
      | none => some targetPath
      | some existing => if existing ≠ rendered then some targetPath else none
    | _, _ => none)

end Generate

/-- No two adjacent hyphens (the shape `re.sub(r"[^a-z0-9]+", "-", ·)`
guarantees for its output). -/
def noDoubleDash : List Char → Bool
  | a :: b :: rest => !(a == '-' && b == '-') && noDoubleDash (b :: rest)
  | _ => true

/-- A concrete `Branding` record (the one `derive_branding "esb"` builds),
used to evaluate `build_context` at a closed input. -/
def sampleBranding : Branding :=
  { cli_name := "esb"
    slug := "esb"
    env_prefix := "ESB"
    label_prefix := "com.esb"
    paths := { home_dir := ".esb", output_dir := ".esb", staging_dir := ".staging" }
    root_ca := { secret_id := "esb_root_ca", cert_filename := "rootCA.crt" }
    runtime :=
      { container_prefix := "esb"
        namespace_ := "esb"
        cni_name := "esb-net"
        cni_bridge := "esb0"
        cni_dir := "/run/esb/cni"
        resolv_conf_path := "/run/containerd/esb/resolv.conf"
        label_env := "esb_env"
        label_function := "esb_function"
        label_created_by := "created_by"
        label_created_by_value := "esb-agent"
        cgroup_parent := "esb"
        cgroup_leaf := "runtime-node" } }

/-! ## Claim theorems -/

/-- C6 counterexample: `build_context` yields 22 keys, not the 23 the
claim states, as evaluation at a concrete `Branding` record shows. -/
theorem build_context_not_23_keys :
    (build_context sampleBranding).length = 22 ∧ (build_context sampleBranding).length ≠ 23 := by
  constructor <;> decide

/-- C6 (amended): for every `Branding` record `b`, `build_context b` is a
mapping with exactly 22 fixed keys, each value taken 1:1 from a `Branding`
field except the computed `ENV_PREFIX_VAR`, whose value is the
shell-variable-reference fragment `"${"` followed by `b.env_prefix`,
intentionally left without a closing brace. -/
theorem build_context_keys (b : Branding) :
    (build_context b).map Prod.fst =
      ["CLI_NAME", "SLUG", "ENV_PREFIX", "ENV_PREFIX_VAR", "LABEL_PREFIX",
       "HOME_DIR", "OUTPUT_DIR", "STAGING_DIR", "ROOT_CA_MOUNT_ID", "ROOT_CA_CERT_FILENAME",
       "RUNTIME_CONTAINER_PREFIX", "RUNTIME_NAMESPACE", "RUNTIME_CNI_NAME",
       "RUNTIME_CNI_BRIDGE", "RUNTIME_CNI_DIR", "RUNTIME_RESOLV_CONF_PATH",
       "RUNTIME_LABEL_ENV", "RUNTIME_LABEL_FUNCTION", "RUNTIME_LABEL_CREATED_BY",
       "RUNTIME_LABEL_CREATED_BY_VALUE", "RUNTIME_CGROUP_PARENT", "RUNTIME_CGROUP_LEAF"] ∧
    (build_context b).length = 22 ∧
    dictGet (build_context b) "ENV_PREFIX_VAR" = some ("$\x7b" ++ b.env_prefix) ∧
    dictGet (build_context b) "CLI_NAME" = some b.cli_name ∧
    dictGet (build_context b) "SLUG" = some b.slug ∧
    dictGet (build_context b) "ENV_PREFIX" = some b.env_prefix ∧
    dictGet (build_context b) "LABEL_PREFIX" = some b.label_prefix ∧
    dictGet (build_context b) "HOME_DIR" = some b.paths.home_dir ∧
    dictGet (build_context b) "OUTPUT_DIR" = some b.paths.output_dir ∧
    dictGet (build_context b) "STAGING_DIR" = some b.paths.staging_dir ∧
    dictGet (build_context b) "ROOT_CA_MOUNT_ID" = some b.root_ca.secret_id ∧
    dictGet (build_context b) "ROOT_CA_CERT_FILENAME" = some b.root_ca.cert_filename ∧
    dictGet (build_context b) "RUNTIME_CONTAINER_PREFIX" = some b.runtime.container_prefix ∧
    dictGet (build_context b) "RUNTIME_NAMESPACE" = some b.runtime.namespace_ ∧
    dictGet (build_context b) "RUNTIME_CNI_NAME" = some b.runtime.cni_name ∧
    dictGet (build_context b) "RUNTIME_CNI_BRIDGE" = some b.runtime.cni_bridge ∧
    dictGet (build_context b) "RUNTIME_CNI_DIR" = some b.runtime.cni_dir ∧
    dictGet (build_context b) "RUNTIME_RESOLV_CONF_PATH" = some b.runtime.resolv_conf_path ∧
    dictGet (build_context b) "RUNTIME_LABEL_ENV" = some b.runtime.label_env ∧
    dictGet (build_context b) "RUNTIME_LABEL_FUNCTION" = some b.runtime.label_function ∧
    dictGet (build_context b) "RUNTIME_LABEL_CREATED_BY" = some b.runtime.label_created_by ∧
    dictGet (build_context b) "RUNTIME_LABEL_CREATED_BY_VALUE" =
      some b.runtime.label_created_by_value ∧
    dictGet (build_context b) "RUNTIME_CGROUP_PARENT" = some b.runtime.cgroup_parent ∧
    dictGet (build_context b) "RUNTIME_CGROUP_LEAF" = some b.runtime.cgroup_leaf := by
  repeat' apply And.intro
  all_goals rfl

/-- C5: lock-record equivalence holds iff all seven listed keys compare
equal after normalizing a missing key and an empty-string value to the
same no-value sentinel; it is reflexive and symmetric; a single listed key
carrying distinct non-empty values in the two records breaks equivalence;
and a key set to the empty string is equivalent to the same key absent
when the records otherwise normalize equal. -/
theorem equivalent_lock_properties :
    (∀ a b, UpdateLock._equivalent_lock a b = true ↔
      ∀ k ∈ UpdateLock.lockKeys, UpdateLock.normGet a k = UpdateLock.normGet b k) ∧
    (∀ a, UpdateLock._equivalent_lock a a = true) ∧
    (∀ a b, UpdateLock._equivalent_lock a b = true → UpdateLock._equivalent_lock b a = true) ∧
    (∀ a b k u v, k ∈ UpdateLock.lockKeys → dictGet a k = some u → dictGet b k = some v →
      u ≠ "" → v ≠ "" → u ≠ v → UpdateLock._equivalent_lock a b = false) ∧
    (∀ a b k, k ∈ UpdateLock.lockKeys → dictGet a k = some "" → dictGet b k = none →
      (∀ k2 ∈ UpdateLock.lockKeys, k2 ≠ k → UpdateLock.normGet a k2 = UpdateLock.normGet b k2) →
      UpdateLock._equivalent_lock a b = true) := by
  have key : ∀ a b, UpdateLock._equivalent_lock a b = true ↔
      ∀ k ∈ UpdateLock.lockKeys, UpdateLock.normGet a k = UpdateLock.normGet b k := by
    intro a b
    simp [UpdateLock._equivalent_lock, List.all_eq_true]
  refine ⟨key, ?_, ?_, ?_, ?_⟩
  · intro a
    exact (key a a).mpr (fun k _ => rfl)
  · intro a b h
    exact (key b a).mpr (fun k hk => ((key a b).mp h k hk).symm)
  · intro a b k u v hk ha hb hu hv huv
    cases hcase : UpdateLock._equivalent_lock a b
    · rfl
    · exfalso
      have heq := (key a b).mp hcase k hk
      simp only [UpdateLock.normGet, ha, hb] at heq
      rw [if_neg (by simpa using hu), if_neg (by simpa using hv)] at heq
      exact huv (Option.some.injEq _ _ ▸ heq)
  · intro a b k hk hsa hsb hrest
    refine (key a b).mpr (fun k2 hk2 => ?_)
    by_cases hek : k2 = k
    · subst hek
      simp [UpdateLock.normGet, hsa, hsb]
    · exact hrest k2 hk2 hek

/-- C5 witness: the properties evaluated at concrete lock records,
including one field empty-string versus the same field missing entirely. -/
theorem equivalent_lock_witness :
    UpdateLock._equivalent_lock [("tool.commit", "a")] [("tool.commit", "b")] = false ∧
    UpdateLock._equivalent_lock [("tool.ref", ""), ("tool.commit", "c")]
      [("tool.commit", "c")] = true :=
  ⟨equivalent_lock_properties.2.2.2.1 _ _ "tool.commit" "a" "b" (by decide) (by decide)
      (by decide) (by decide) (by decide) (by decide),
    equivalent_lock_properties.2.2.2.2 _ _ "tool.ref" (by decide) (by decide) (by decide)
      (by decide)⟩

/-- C7 counterexample: `generate._strip_quotes` on `"\" a \""` yields
`"a"`, not the exactly-dequoted `" a "` — it also trims the whitespace
just inside the quotes, so the stored value is not obtained by removing
only the surrounding quote characters. -/
theorem strip_quotes_counterexample :
    Generate._strip_quotes "\" a \"" = "a" ∧ Generate._strip_quotes "\" a \"" ≠ " a " := by
  constructor <;> decide

/-- C7 (amended): the `update_lock.py` parser stores a quoted value with
exactly the surrounding quote characters removed; the `generate.py`
parser removes the quotes and additionally Python-`.strip()`s the text
inside them (interior whitespace between non-space characters is still
preserved, but whitespace adjacent to the quotes is dropped); unquoted
values are stored as-is by both. -/
theorem strip_quotes_spec (l : List Char) (q : Char) (hq : q = '"' ∨ q = '\x27') :
    UpdateLock._strip_quotes ⟨q :: (l ++ [q])⟩ = ⟨l⟩ ∧
    Generate._strip_quotes ⟨q :: (l ++ [q])⟩ = ⟨pyStripL l⟩ ∧
    (∀ (v : String) (c : Char) (rest : List Char), v.data = c :: rest →
      ¬(rest.getLast? = some c ∧ (c = '"' ∨ c = '\x27')) →
      UpdateLock._strip_quotes v = v ∧ Generate._strip_quotes v = v) := by
  have hlen : (⟨q :: (l ++ [q])⟩ : String).length ≥ 2 := by
    simp [String.length]
  refine ⟨?_, ?_, ?_⟩
  · show (if (⟨q :: (l ++ [q])⟩ : String).length ≥ 2 then
        (⟨UpdateLock.stripQuotesL (q :: (l ++ [q]))⟩ : String)
      else ⟨q :: (l ++ [q])⟩) = ⟨l⟩
    rw [if_pos hlen]
    simp only [UpdateLock.stripQuotesL, List.getLast?_concat]
    rcases hq with h | h <;>
      simp [h, List.dropLast_concat]
  · show (if (⟨q :: (l ++ [q])⟩ : String).length < 2 then (⟨q :: (l ++ [q])⟩ : String)
      else ⟨Generate.stripQuotesL (q :: (l ++ [q]))⟩) = ⟨pyStripL l⟩
    rw [if_neg (by omega)]
    simp only [Generate.stripQuotesL, List.getLast?_concat]
    rcases hq with h | h <;>
      simp [h, List.dropLast_concat]
  · intro v c rest hv hnq
    have hfalse : ((rest.getLast? == some c) && ((c == '"' || c == '\x27'))) = false := by
      rw [Bool.and_eq_false_iff]
      by_cases hl2 : rest.getLast? = some c
      · right
        simp only [Bool.or_eq_false_iff, beq_eq_false_iff_ne]
        exact ⟨fun h1 => hnq ⟨hl2, Or.inl h1⟩, fun h2 => hnq ⟨hl2, Or.inr h2⟩⟩
      · left
        simpa using hl2
    have hfalse2 : ((rest.getLast? == some c) && ((c == '\x27' || c == '"'))) = false := by
      rw [Bool.and_eq_false_iff]
      by_cases hl2 : rest.getLast? = some c
      · right
        simp only [Bool.or_eq_false_iff, beq_eq_false_iff_ne]
        exact ⟨fun h1 => hnq ⟨hl2, Or.inr h1⟩, fun h2 => hnq ⟨hl2, Or.inl h2⟩⟩
      · left
        simpa using hl2
    constructor
    · show (if v.length ≥ 2 then (⟨UpdateLock.stripQuotesL v.data⟩ : String) else v) = v
      rcases Nat.lt_or_ge v.length 2 with h2 | h2
      · rw [if_neg (by omega)]
      · rw [if_pos h2, hv]
        simp only [UpdateLock.stripQuotesL, hfalse, Bool.false_eq_true, if_false]
        rw [← hv]
    · show (if v.length < 2 then v else (⟨Generate.stripQuotesL v.data⟩ : String)) = v
      rcases Nat.lt_or_ge v.length 2 with h2 | h2
      · rw [if_pos h2]
      · rw [if_neg (by omega), hv]
        simp only [Generate.stripQuotesL, hfalse2, Bool.false_eq_true, if_false]
        rw [← hv]

/-- C7 witness: the amended behavior at a concrete quoted value with
whitespace inside the quotes. -/
theorem strip_quotes_witness :
    UpdateLock._strip_quotes "\" a \"" = " a " ∧
    Generate._strip_quotes "\" a \"" = "a" :=
  ⟨(strip_quotes_spec [' ', 'a', ' '] '"' (Or.inl rfl)).1,
   (strip_quotes_spec [' ', 'a', ' '] '"' (Or.inl rfl)).2.1⟩

/-- C2: info-file reconciliation is skipped entirely for the reserved
self-brand `"esb"`; otherwise, when no info record exists, a missing base
argument warns-and-returns under force and fails without force, while a
supplied base argument fails in check mode and otherwise classifies the
value and writes the new record. -/
theorem ensure_esb_info_spec :
    (∀ file esb_base check force,
      Generate.ensure_esb_info file "esb" esb_base check force = .ok .skipped) ∧
    (∀ file brand esb_base check force, brand ≠ "esb" → Generate.load_esb_info file = [] →
      (esb_base.getD "" = "" →
        (force = true →
          Generate.ensure_esb_info file brand esb_base check force = .ok .warned) ∧
        (force = false →
          Generate.ensure_esb_info file brand esb_base check force =
            .error ".esb-info missing (use --esb-base to create it)")) ∧
      (esb_base.getD "" ≠ "" →
        (check = true →
          Generate.ensure_esb_info file brand esb_base check force =
            .error ".esb-info missing for --check (rerun without --check)") ∧
        (check = false →
          Generate.ensure_esb_info file brand esb_base check force =
            .ok (.wrote (Generate.normalize_esb_base (esb_base.getD "")).1
              (Generate.normalize_esb_base (esb_base.getD "")).2)))) := by
  constructor
  · intro file esb_base check force
    simp [Generate.ensure_esb_info]
  · intro file brand esb_base check force hbrand hload
    have hb : (brand == "esb") = false := by simpa using hbrand
    constructor
    · intro hbase
      constructor <;> intro hf <;> subst hf <;>
        simp [Generate.ensure_esb_info, hb, hload, hbase]
    · intro hbase
      have hbase2 : (esb_base.getD "" == "") = false := by simpa using hbase
      constructor <;> intro hc <;> subst hc <;>
        simp [Generate.ensure_esb_info, hb, hload, hbase2]

/-- C2 witness: the skip, warn, fail, check-fail and create branches at
concrete inputs. -/
theorem ensure_esb_info_witness :
    Generate.ensure_esb_info (some ["ESB_BASE_TAG=v1"]) "esb" none true true = .ok .skipped ∧
    Generate.ensure_esb_info none "acme" none false true = .ok .warned ∧
    Generate.ensure_esb_info none "acme" none false false =
      .error ".esb-info missing (use --esb-base to create it)" ∧
    Generate.ensure_esb_info none "acme" (some "v1.2") true false =
      .error ".esb-info missing for --check (rerun without --check)" ∧
    Generate.ensure_esb_info none "acme" (some "abc1234") false false =
      .ok (.wrote "ESB_BASE_COMMIT" "abc1234") :=
  ⟨ensure_esb_info_spec.1 (some ["ESB_BASE_TAG=v1"]) none true true,
   ((ensure_esb_info_spec.2 none "acme" none false true (by decide) rfl).1 rfl).1 rfl,
   ((ensure_esb_info_spec.2 none "acme" none false false (by decide) rfl).1 rfl).2 rfl,
   ((ensure_esb_info_spec.2 none "acme" (some "v1.2") true false (by decide) rfl).2
      (by decide)).1 rfl,
   ((ensure_esb_info_spec.2 none "acme" (some "abc1234") false false (by decide) rfl).2
      (by decide)).2 rfl⟩

/-- C10 counterexample: an info file whose only line is `ESB_BASE_COMMIT=`
loads as the empty record, and reconciliation for a non-self brand then
fails through the info-file-missing path, not with the
`missing ESB base entry` error the claim states. -/
theorem empty_base_line_counterexample :
    Generate.load_esb_info (some ["ESB_BASE_COMMIT="]) = [] ∧
    Generate.ensure_esb_info (some ["ESB_BASE_COMMIT="]) "acme" none false false =
      .error ".esb-info missing (use --esb-base to create it)" ∧
    (".esb-info missing (use --esb-base to create it)" : String) ≠
      ".esb-info missing ESB base entry" := by
  refine ⟨?_, ?_, ?_⟩ <;> decide

/-- C10 (amended): a line whose key or value is empty after trimming is
omitted when the info file is loaded; consequently, for a non-self brand,
an info file containing only such lines loads as the empty record and is
treated as if no info record exists — without a base argument and without
force, reconciliation fails with the info-file-missing error rather than
the `missing ESB base entry` error. -/
theorem empty_info_lines_treated_missing (brand : String) (hbrand : brand ≠ "esb")
    (lines : List String)
    (hlines : ∀ line ∈ lines, Generate.parseInfoLine? line = none) :
    (∀ line : String, (pyStrip ⟨beforeFirst '=' (pyStrip line).data⟩ = "" ∨
        pyStrip ⟨afterFirst '=' (pyStrip line).data⟩ = "") →
      Generate.parseInfoLine? line = none) ∧
    Generate.load_esb_info (some lines) = [] ∧
    Generate.ensure_esb_info (some lines) brand none false false =
      .error ".esb-info missing (use --esb-base to create it)" := by
  have hload : Generate.load_esb_info (some lines) = [] := by
    simp only [Generate.load_esb_info]
    have : ∀ (ls : List String) (d : List (String × String)),
        (∀ line ∈ ls, Generate.parseInfoLine? line = none) →
        (ls.foldl (fun d line =>
          match Generate.parseInfoLine? line with
          | some (k, v) => dictInsert d k v
          | none => d) d) = d := by
      intro ls
      induction ls with
      | nil => intro d _; rfl
      | cons line rest ih =>
        intro d hall
        rw [List.foldl_cons, hall line (by simp)]
        exact ih d (fun l hl => hall l (by simp [hl]))
    exact this lines [] hlines
  refine ⟨?_, hload, ?_⟩
  · intro line hcase
    simp only [Generate.parseInfoLine?]
    by_cases hskip : (pyStrip line == "" || pyStartsWith (pyStrip line) "#"
        || !((pyStrip line).data.contains '=')) = true
    · simp only [hskip]
      rfl
    · rw [if_neg (by simpa using hskip)]
      rcases hcase with h | h <;> simp [h]
  · have hb : (brand == "esb") = false := by simpa using hbrand
    simp [Generate.ensure_esb_info, hb, hload]

/-- C10 witness: the amended behavior at a concrete info file containing
only an empty-valued base line. -/
theorem empty_info_lines_witness :
    Generate.parseInfoLine? "ESB_BASE_COMMIT=" = none ∧
    Generate.load_esb_info (some ["ESB_BASE_COMMIT="]) = [] ∧
    Generate.ensure_esb_info (some ["ESB_BASE_COMMIT="]) "acme" none false false =
      .error ".esb-info missing (use --esb-base to create it)" :=
  have h := empty_info_lines_treated_missing "acme" (by decide) ["ESB_BASE_COMMIT="]
    (by intro l hl; simp at hl; subst hl; decide)
  ⟨h.1 "ESB_BASE_COMMIT=" (Or.inr (by decide)), h.2.1, h.2.2⟩

/-- Unfolding lemma: `resolve_brand` as a case split on the result of
`load_brand_from_config`. -/
theorem resolve_brand_eq (brand : Option String) (file : Option (List String)) (check : Bool) :
    Generate.resolve_brand brand file check =
      match Generate.load_brand_from_config file with
      | .error e => .error e
      | .ok config_brand =>
        if pyStrip (brand.getD "") != "" then
          if config_brand.getD "" != "" && config_brand.getD "" != pyStrip (brand.getD "") then
            if check then
              .error ("brand mismatch for --check (config=" ++ config_brand.getD "" ++
                ", requested=" ++ pyStrip (brand.getD "") ++ ")")
            else .ok (pyStrip (brand.getD ""), file)
          else .ok (pyStrip (brand.getD ""), file)
        else
          if config_brand.getD "" != "" then .ok (config_brand.getD "", file)
          else .error "brand is required (use --brand or set config/branding.yaml)" := by
  cases h : Generate.load_brand_from_config file with
  | error e => simp only [Generate.resolve_brand, h]; rfl
  | ok config_brand => simp only [Generate.resolve_brand, h]; rfl

/-- Helper: when no line of the config file yields a non-empty brand
value, the scan of `load_brand_from_config` raises the missing-value
configuration error. -/
theorem loadBrandLines_error_of_no_value :
    ∀ lines : List String, (∀ line ∈ lines, Generate.brandLineValue line = "") →
      Generate.loadBrandLines lines =
        .error "config/branding.yaml missing \x27brand\x27 value" := by
  intro lines
  induction lines with
  | nil => intro _; rfl
  | cons line rest ih =>
    intro hno
    have hline := hno line (by simp)
    have htail := ih (fun l hl => hno l (by simp [hl]))
    simp only [Generate.loadBrandLines]
    by_cases h1 : (pyStrip line == "" || pyStartsWith (pyStrip line) "#") = true
    · simp only [h1, if_true]
      exact htail
    · rw [if_neg (by simpa using h1)]
      by_cases h2 : (!pyStartsWith (pyStrip line) "brand:") = true
      · simp only [h2, if_true]
        exact htail
      · rw [if_neg (by simpa using h2)]
        have hval : Generate._strip_quotes (Generate._strip_inline_comment
            (pyStrip ⟨afterFirst ':' (pyStrip line).data⟩)) = "" := by
          have hcond : (pyStrip line == "" || pyStartsWith (pyStrip line) "#"
              || !pyStartsWith (pyStrip line) "brand:") = false := by
            rw [Bool.not_eq_true] at h1 h2
            simp only [Bool.or_eq_false_iff] at h1 ⊢
            exact ⟨h1, h2⟩
          simpa only [Generate.brandLineValue, hcond, Bool.false_eq_true, if_false] using hline
        simp [hval]

/-- C9: when the config file exists but no line carries a non-empty
`brand:` value, brand resolution fails with the missing-brand-value
configuration error even though a non-empty explicit brand argument was
supplied, because the config file is read and validated first; with the
config file absent, the same explicit argument resolves successfully. -/
theorem malformed_config_blocks_resolution (lines : List String) (b : String) (check : Bool)
    (hb : pyStrip b ≠ "")
    (hno : ∀ line ∈ lines, Generate.brandLineValue line = "") :
    Generate.resolve_brand (some b) (some lines) check =
      .error "config/branding.yaml missing \x27brand\x27 value" ∧
    Generate.resolve_brand (some b) none check = .ok (pyStrip b, none) := by
  constructor
  · have hload := loadBrandLines_error_of_no_value lines hno
    rw [resolve_brand_eq]
    have : Generate.load_brand_from_config (some lines) = Generate.loadBrandLines lines := rfl
    rw [this, hload]
  · have hbval : (pyStrip ((some b).getD "") != "") = true := by simpa using hb
    rw [resolve_brand_eq]
    have : Generate.load_brand_from_config none = .ok none := rfl
    rw [this]
    simp [hbval, hb]

/-- C9 witness: a config file whose only `brand:` line has an empty value
blocks resolution despite the explicit argument; an absent file does not. -/
theorem malformed_config_witness :
    Generate.resolve_brand (some "acme") (some ["brand:", "# note"]) false =
      .error "config/branding.yaml missing \x27brand\x27 value" ∧
    Generate.resolve_brand (some "acme") none false = .ok ("acme", none) :=
  malformed_config_blocks_resolution ["brand:", "# note"] "acme" false (by decide)
    (by
      intro l hl
      simp only [List.mem_cons, List.mem_singleton, List.not_mem_nil, or_false] at hl
      rcases hl with rfl | rfl <;> decide)

/-- C1: with an explicit non-empty brand argument, resolution fails with
the mismatch error exactly when a persisted config value exists, differs
from the trimmed argument, and the run is in check mode; in every other
case it returns the trimmed argument with the config file unchanged.
With no explicit argument it returns the persisted value when one exists
and fails with the brand-is-required error otherwise. -/
theorem resolve_brand_spec (b : String) (file : Option (List String)) (cfg : Option String)
    (check : Bool) (hload : Generate.load_brand_from_config file = .ok cfg)
    (hb : pyStrip b ≠ "") :
    (∀ c, cfg = some c → c ≠ "" → c ≠ pyStrip b → check = true →
      Generate.resolve_brand (some b) file check =
        .error ("brand mismatch for --check (config=" ++ c ++ ", requested=" ++
          pyStrip b ++ ")")) ∧
    (((∀ c, cfg = some c → c = "" ∨ c = pyStrip b) ∨ check = false) →
      Generate.resolve_brand (some b) file check = .ok (pyStrip b, file)) ∧
    (∀ c, cfg = some c → c ≠ "" →
      Generate.resolve_brand none file check = .ok (c, file)) ∧
    (cfg.getD "" = "" →
      Generate.resolve_brand none file check =
        .error "brand is required (use --brand or set config/branding.yaml)") := by
  have h0 : pyStrip "" = "" := rfl
  refine ⟨?_, ?_, ?_, ?_⟩
  · intro c hc hcne hcb hcheck
    subst hc
    subst hcheck
    rw [resolve_brand_eq, hload]
    simp [hb, hcne, hcb]
  · intro hother
    rw [resolve_brand_eq, hload]
    rcases hother with hall | hcf
    · have hcond : ¬(¬cfg.getD "" = "" ∧ ¬cfg.getD "" = pyStrip b) := by
        cases cfg with
        | none => simp
        | some c => rcases hall c rfl with h | h <;> simp [h]
      simp [hb, hcond]
    · subst hcf
      simp [hb]
  · intro c hc hcne
    subst hc
    rw [resolve_brand_eq, hload]
    simp [h0, hcne]
  · intro hcfg
    rw [resolve_brand_eq, hload]
    simp [h0, hcfg]

/-- C1 witness: the mismatch error at explicit `"acme"` against persisted
`"esb"` in check mode, the pass-through in non-check mode with the file
unchanged, and the two no-argument outcomes. -/
theorem resolve_brand_witness :
    Generate.resolve_brand (some "acme") (some ["brand: esb"]) true =
      .error "brand mismatch for --check (config=esb, requested=acme)" ∧
    Generate.resolve_brand (some "acme") (some ["brand: esb"]) false =
      .ok ("acme", some ["brand: esb"]) ∧
    Generate.resolve_brand none (some ["brand: esb"]) false = .ok ("esb", some ["brand: esb"]) ∧
    Generate.resolve_brand none none false =
      .error "brand is required (use --brand or set config/branding.yaml)" :=
  ⟨(resolve_brand_spec "acme" (some ["brand: esb"]) (some "esb") true (by decide)
      (by decide)).1 "esb" rfl (by decide) (by decide) rfl,
   (resolve_brand_spec "acme" (some ["brand: esb"]) (some "esb") false (by decide)
      (by decide)).2.1 (Or.inr rfl),
   (resolve_brand_spec "acme" (some ["brand: esb"]) (some "esb") false (by decide)
      (by decide)).2.2.1 "esb" rfl (by decide),
   (resolve_brand_spec "b" none none false (by decide) (by decide)).2.2.2 rfl⟩

/-- Helper: binding a failed `Except` computation propagates the error. -/
theorem except_error_bind {α β : Type} (e : String) (f : α → Except String β) :
    (Except.error e >>= f) = Except.error e := rfl

/-- Helper: binding a successful `Except` computation applies the
continuation. -/
theorem except_ok_bind {α β : Type} (a : α) (f : α → Except String β) :
    (Except.ok a >>= f) = f a := rfl

/-- Helper: the substitution pass either fails on the first matched name
missing from the context, naming it, or succeeds with the total
substitution of every matched placeholder. -/
theorem renderCharsF_eq (context : List (String × String)) :
    ∀ (fuel : Nat) (l : List Char),
      Generate.renderCharsF context fuel l =
        match Generate.firstMissingF context fuel l with
        | some n => .error ("unknown template key: " ++ n)
        | none => .ok (Generate.substAllF context fuel l) := by
  intro fuel
  induction fuel with
  | zero => intro l; cases l <;> rfl
  | succ fuel ih =>
    intro l
    cases l with
    | nil => rfl
    | cons c rest =>
      simp only [Generate.renderCharsF, Generate.firstMissingF, Generate.substAllF]
      cases hm : Generate.matchPlaceholder (c :: rest) with
      | none =>
        rw [ih rest]
        cases hf : Generate.firstMissingF context fuel rest <;> simp [Except.map]
      | some pair =>
        obtain ⟨name, rest2⟩ := pair
        cases hg : dictGet context name with
        | none => simp [hg]
        | some v =>
          simp only [hg, ih rest2]
          cases hf : Generate.firstMissingF context fuel rest2 <;> simp [Except.map]

/-- C4: rendering replaces each placeholder match by its context value;
it fails with the unknown-placeholder error naming the first matched name
absent from the context; after substitution it fails with the
unresolved-placeholder error when the output still contains the
placeholder pattern; otherwise it returns the substituted output. -/
theorem render_string_spec (template : String) (context : List (String × String)) :
    Generate.render_string template context =
      match Generate.firstMissing context template.data with
      | some name => .error ("unknown template key: " ++ name)
      | none =>
        if Generate.containsPlaceholder (Generate.substAll context template.data) then
          .error "unresolved template placeholders detected"
        else .ok ⟨Generate.substAll context template.data⟩ := by
  simp only [Generate.render_string, Generate.renderChars, Generate.firstMissing,
    Generate.substAll]
  rw [renderCharsF_eq]
  cases Generate.firstMissingF context template.data.length template.data <;> rfl

/-- C3: in check mode, rendering all template specs leaves the filesystem
unchanged — no file is written or created — and returns exactly the list
of target paths whose file is absent or whose content differs
byte-for-byte from the rendered output, covering every spec in order. -/
theorem render_templates_check (tmplRead : String → String) (specs : List Generate.TemplateSpec)
    (context : List (String × String)) (fs : List (String × String)) (ms : List String)
    (fs2 : List (String × String))
    (h : Generate.render_templates tmplRead specs context true fs = .ok (ms, fs2)) :
    fs2 = fs ∧ ms = Generate.checkMismatches tmplRead specs context fs := by
  induction specs generalizing ms fs2 with
  | nil =>
    simp only [Generate.render_templates] at h
    cases h
    exact ⟨rfl, rfl⟩
  | cons spec rest ih =>
    simp only [Generate.render_templates] at h
    cases ht : Generate.render_string spec.target context with
    | error e =>
      rw [ht, except_error_bind] at h
      simp at h
    | ok targetPath =>
      rw [ht, except_ok_bind] at h
      cases hr : Generate.render_string (tmplRead spec.template) context with
      | error e =>
        rw [hr, except_error_bind] at h
        simp at h
      | ok rendered =>
        rw [hr, except_ok_bind] at h
        rw [if_pos trivial] at h
        cases hget : dictGet fs targetPath with
        | none =>
          rw [hget] at h
          cases hrec : Generate.render_templates tmplRead rest context true fs with
          | error e =>
            rw [hrec, except_error_bind] at h
            simp at h
          | ok pr =>
            obtain ⟨ms', fs'⟩ := pr
            rw [hrec, except_ok_bind] at h
            cases h
            obtain ⟨hfs, hms⟩ := ih _ _ hrec
            refine ⟨hfs, ?_⟩
            simp [Generate.checkMismatches, ht, hr, hget] at hms ⊢
            exact hms
        | some existing =>
          rw [hget] at h
          dsimp only at h
          by_cases hne : (existing != rendered) = true
          · rw [if_pos hne] at h
            cases hrec : Generate.render_templates tmplRead rest context true fs with
            | error e =>
              rw [hrec, except_error_bind] at h
              simp at h
            | ok pr =>
              obtain ⟨ms', fs'⟩ := pr
              rw [hrec, except_ok_bind] at h
              cases h
              obtain ⟨hfs, hms⟩ := ih _ _ hrec
              refine ⟨hfs, ?_⟩
              have hne2 : existing ≠ rendered := by simpa using hne
              simp [Generate.checkMismatches, ht, hr, hget, hne2] at hms ⊢
              exact hms
          · rw [if_neg hne] at h
            obtain ⟨hfs, hms⟩ := ih _ _ h
            refine ⟨hfs, ?_⟩
            have hne2 : existing = rendered := by simpa using hne
            simp [Generate.checkMismatches, ht, hr, hget, hne2] at hms ⊢
            exact hms

/-- C3 witness: a two-spec run in check mode against a filesystem holding
one up-to-date target; the absent target is reported, nothing is written. -/
theorem render_templates_check_witness :
    Generate.render_templates (fun t => if t == "a.tmpl" then "A \x7b\x7bX\x7d\x7d" else "B")
      [⟨"a.tmpl", "out-a"⟩, ⟨"b.tmpl", "out-b"⟩] [("X", "1")] true [("out-b", "B")] =
      .ok (["out-a"], [("out-b", "B")]) ∧
    [("out-b", "B")] = [("out-b", "B")] ∧
    ["out-a"] = Generate.checkMismatches
      (fun t => if t == "a.tmpl" then "A \x7b\x7bX\x7d\x7d" else "B")
      [⟨"a.tmpl", "out-a"⟩, ⟨"b.tmpl", "out-b"⟩] [("X", "1")] [("out-b", "B")] :=
  ⟨by decide,
   render_templates_check (fun t => if t == "a.tmpl" then "A \x7b\x7bX\x7d\x7d" else "B")
     [⟨"a.tmpl", "out-a"⟩, ⟨"b.tmpl", "out-b"⟩] [("X", "1")] [("out-b", "B")]
     ["out-a"] [("out-b", "B")] (by decide)⟩

/-- Helper: slug characters and the hyphen are fixed points of
`Char.toLower`. -/
theorem slugOrDash_toLower_fix (c : Char) (h : isSlugChar c = true ∨ c = '-') :
    Char.toLower c = c := by
  rcases h with h | h
  · simp only [isSlugChar, Bool.or_eq_true, Bool.and_eq_true, decide_eq_true_eq] at h
    simp only [Char.toLower, Char.toNat]
    rw [if_neg]
    rintro ⟨ha, hb⟩
    rcases h with ⟨h1, _⟩ | ⟨_, h2⟩
    · rw [Char.le_def, UInt32.le_def, BitVec.le_def] at h1
      have e1 : ('a').val.toBitVec.toNat = 97 := rfl
      simp only [UInt32.toNat] at *
      omega
    · rw [Char.le_def, UInt32.le_def, BitVec.le_def] at h2
      have e1 : ('9').val.toBitVec.toNat = 57 := rfl
      simp only [UInt32.toNat] at *
      omega
  · subst h
    decide

/-- Helper: slug characters and the hyphen are not Python whitespace. -/
theorem slugOrDash_not_space (c : Char) (h : isSlugChar c = true ∨ c = '-') :
    pyIsSpace c = false := by
  rcases h with h | h
  · simp only [isSlugChar, Bool.or_eq_true, Bool.and_eq_true, decide_eq_true_eq] at h
    rcases h with ⟨h1, _⟩ | ⟨h1, _⟩ <;>
    · simp only [pyIsSpace, Bool.or_eq_false_iff, beq_eq_false_iff_ne]
      refine ⟨⟨⟨⟨⟨?_, ?_⟩, ?_⟩, ?_⟩, ?_⟩, ?_⟩ <;> (rintro rfl; revert h1; decide)
  · subst h
    decide

/-- Helper: `noDoubleDash` descends to the tail. -/
theorem noDD_tail (a : Char) (l : List Char) (h : noDoubleDash (a :: l) = true) :
    noDoubleDash l = true := by
  cases l with
  | nil => rfl
  | cons b t =>
    simp only [noDoubleDash, Bool.and_eq_true] at h
    exact h.2

/-- Helper: `noDoubleDash` holds of a left factor of an append. -/
theorem noDD_append_left (s t : List Char) (h : noDoubleDash (s ++ t) = true) :
    noDoubleDash s = true := by
  induction s with
  | nil => rfl
  | cons a s ih =>
    cases s with
    | nil => rfl
    | cons b s2 =>
      simp only [List.cons_append, noDoubleDash, Bool.and_eq_true] at h ⊢
      exact ⟨h.1, by simpa [noDoubleDash] using ih (by simpa [noDoubleDash] using h.2)⟩

/-- Helper: `noDoubleDash` holds of a right factor of an append. -/
theorem noDD_append_right (s t : List Char) (h : noDoubleDash (s ++ t) = true) :
    noDoubleDash t = true := by
  induction s with
  | nil => exact h
  | cons a s ih => exact ih (noDD_tail a (s ++ t) h)

/-- Helper: every character of the collapsed list is a slug character or
a hyphen. -/
theorem collapseNonSlug_mem :
    ∀ (l : List Char) (c : Char), c ∈ collapseNonSlug l → isSlugChar c = true ∨ c = '-' := by
  intro l
  induction l with
  | nil => intro c hc; simp [collapseNonSlug] at hc
  | cons a rest ih =>
    intro c hc
    simp only [collapseNonSlug] at hc
    by_cases ha : isSlugChar a = true
    · rw [if_pos ha] at hc
      rcases List.mem_cons.mp hc with rfl | hc
      · exact Or.inl ha
      · exact ih c hc
    · rw [if_neg ha] at hc
      by_cases hh : ((collapseNonSlug rest).head? == some '-') = true
      · rw [if_pos hh] at hc
        exact ih c hc
      · rw [if_neg hh] at hc
        rcases List.mem_cons.mp hc with rfl | hc
        · exact Or.inr rfl
        · exact ih c hc

/-- Helper: the collapsed list never contains two adjacent hyphens. -/
theorem collapseNonSlug_noDD : ∀ l : List Char, noDoubleDash (collapseNonSlug l) = true := by
  intro l
  induction l with
  | nil => rfl
  | cons a rest ih =>
    simp only [collapseNonSlug]
    by_cases ha : isSlugChar a = true
    · rw [if_pos ha]
      have hane : (a == '-') = false := by
        by_cases had : a = '-'
        · subst had
          exact absurd ha (by decide)
        · simpa using had
      cases hr : collapseNonSlug rest with
      | nil => rfl
      | cons b t =>
        rw [hr] at ih
        simp [noDoubleDash, hane, ih]
    · rw [if_neg ha]
      by_cases hh : ((collapseNonSlug rest).head? == some '-') = true
      · rw [if_pos hh]
        exact ih
      · rw [if_neg hh]
        cases hr : collapseNonSlug rest with
        | nil => rfl
        | cons b t =>
          rw [hr] at ih hh
          have hbne : (b == '-') = false := by
            by_cases hbd : b = '-'
            · subst hbd
              exact absurd (by simp : (('-' :: t).head? == some '-') = true) hh
            · simpa using hbd
          simp [noDoubleDash, hbne, ih]

/-- Helper: collapsing is the identity on lists of slug-or-hyphen
characters with no two adjacent hyphens. -/
theorem collapseNonSlug_id :
    ∀ l : List Char, (∀ c ∈ l, isSlugChar c = true ∨ c = '-') → noDoubleDash l = true →
      collapseNonSlug l = l := by
  intro l
  induction l with
  | nil => intro _ _; rfl
  | cons a rest ih =>
    intro hmem hdd
    have hrest := ih (fun c hc => hmem c (List.mem_cons_of_mem a hc)) (noDD_tail a rest hdd)
    simp only [collapseNonSlug, hrest]
    rcases hmem a (List.mem_cons_self a rest) with ha | ha
    · rw [if_pos ha]
    · subst ha
      have ha2 : isSlugChar '-' = true → False := by decide
      rw [if_neg (fun h => ha2 h)]
      cases rest with
      | nil => rfl
      | cons b t =>
        have hbne : (b == '-') = false := by
          by_cases hbd : b = '-'
          · subst hbd
            exact absurd hdd (by simp [noDoubleDash])
          · simpa using hbd
        rw [if_neg (by simp [hbne] : ¬((b :: t).head? == some '-') = true)]

/-- Helper: membership passes through `stripDashes`. -/
theorem mem_stripDashes (l : List Char) (c : Char) (h : c ∈ stripDashes l) : c ∈ l := by
  have h1 : c ∈ l.dropWhile (fun c => c == '-') :=
    (List.rdropWhile_prefix (fun c => c == '-')
      (l.dropWhile (fun c => c == '-'))).sublist.subset h
  exact (List.dropWhile_suffix (fun c => c == '-')).sublist.subset h1

/-- Helper: `noDoubleDash` passes through `stripDashes`. -/
theorem noDD_stripDashes (l : List Char) (h : noDoubleDash l = true) :
    noDoubleDash (stripDashes l) = true := by
  obtain ⟨s, hs⟩ := List.dropWhile_suffix (l := l) (fun c => c == '-')
  have h1 : noDoubleDash (l.dropWhile (fun c => c == '-')) = true :=
    noDD_append_right s _ (by rw [hs]; exact h)
  obtain ⟨t, ht⟩ := List.rdropWhile_prefix (fun c => c == '-') (l.dropWhile (fun c => c == '-'))
  exact noDD_append_left _ t (by simp only [stripDashes]; rw [ht]; exact h1)

/-- Helper: the head of `stripDashes l` is not a hyphen. -/
theorem head_stripDashes (l : List Char) (c : Char) (t : List Char)
    (h : stripDashes l = c :: t) : (c == '-') = false := by
  obtain ⟨t2, ht2⟩ := List.rdropWhile_prefix (fun c => c == '-') (l.dropWhile (fun c => c == '-'))
  have hne : l.dropWhile (fun c => c == '-') ≠ [] := by
    intro hemp
    rw [stripDashes, hemp] at h
    simp at h
  have hhead := List.head_dropWhile_not (fun c => c == '-') l hne
  rw [stripDashes] at h
  rw [h] at ht2
  have : l.dropWhile (fun c => c == '-') = c :: (t ++ t2) := by
    rw [← ht2]
    simp
  simp only [this, List.head_cons] at hhead
  simpa using hhead

/-- Helper: the last character of `stripDashes l` is not a hyphen. -/
theorem last_stripDashes (l : List Char) (h : stripDashes l ≠ []) :
    ((stripDashes l).getLast h == '-') = false := by
  have := List.rdropWhile_last_not (fun c => c == '-') (l.dropWhile (fun c => c == '-'))
    (by rw [stripDashes] at h; exact h)
  simpa using this

/-- Helper: Python `strip()` is the identity on slug-or-hyphen lists. -/
theorem pyStripL_fix (l : List Char) (h : ∀ c ∈ l, isSlugChar c = true ∨ c = '-') :
    pyStripL l = l := by
  have h1 : List.dropWhile pyIsSpace l = l := by
    rw [List.dropWhile_eq_self_iff]
    intro hl
    have hm := h (l.get ⟨0, hl⟩) (l.get_mem 0 hl)
    have hs := slugOrDash_not_space _ hm
    simp only [List.get_eq_getElem] at hs
    simp [hs]
  have h2 : List.rdropWhile pyIsSpace l = l := by
    rw [List.rdropWhile_eq_self_iff]
    intro hl
    have hm := h (l.getLast hl) (List.getLast_mem hl)
    simp [slugOrDash_not_space _ hm]
  rw [pyStripL, h1, h2]

/-- Helper: Python `lower()` is the identity on slug-or-hyphen lists. -/
theorem pyLower_fix (l : List Char) (h : ∀ c ∈ l, isSlugChar c = true ∨ c = '-') :
    pyLower l = l := by
  induction l with
  | nil => rfl
  | cons a rest ih =>
    simp only [pyLower, List.map_cons]
    rw [slugOrDash_toLower_fix a (h a (List.mem_cons_self a rest))]
    have := ih (fun c hc => h c (List.mem_cons_of_mem a hc))
    simp only [pyLower] at this
    rw [this]

/-- Helper: `strip("-")` is the identity when neither end is a hyphen. -/
theorem stripDashes_fix (l : List Char)
    (hhead : ∀ c t, l = c :: t → (c == '-') = false)
    (hlast : ∀ h2 : l ≠ [], (l.getLast h2 == '-') = false) :
    stripDashes l = l := by
  cases l with
  | nil => rfl
  | cons c t =>
    have h1 : List.dropWhile (fun c => c == '-') (c :: t) = c :: t := by
      rw [List.dropWhile_cons, if_neg (by simp [hhead c t rfl])]
    have h2 : List.rdropWhile (fun c => c == '-') (c :: t) = c :: t := by
      rw [List.rdropWhile_eq_self_iff]
      intro hl
      simpa using hlast hl
    rw [stripDashes, h1, h2]

/-- C8: slug derivation is idempotent on its own output — whenever
`_normalize_slug s` succeeds with slug `t`, applying it to `t` succeeds
and returns `t` unchanged. -/
theorem slug_idempotent (s t : String) (h : _normalize_slug s = .ok t) :
    _normalize_slug t = .ok t := by
  simp only [_normalize_slug] at h
  by_cases he : (stripDashes (collapseNonSlug (pyLower (pyStripL s.data)))).isEmpty = true
  · rw [if_pos he] at h
    exact absurd h (by simp)
  · rw [if_neg he] at h
    have ht : t = ⟨stripDashes (collapseNonSlug (pyLower (pyStripL s.data)))⟩ := by
      cases h
      rfl
    subst ht
    set cl := stripDashes (collapseNonSlug (pyLower (pyStripL s.data))) with hcl
    have hmem : ∀ c ∈ cl, isSlugChar c = true ∨ c = '-' := fun c hc =>
      collapseNonSlug_mem _ c (mem_stripDashes _ c hc)
    have hdd : noDoubleDash cl = true := noDD_stripDashes _ (collapseNonSlug_noDD _)
    have hhead : ∀ c t2, cl = c :: t2 → (c == '-') = false := fun c t2 hct =>
      head_stripDashes _ c t2 hct
    have hlast : ∀ h2 : cl ≠ [], (cl.getLast h2 == '-') = false := fun h2 =>
      last_stripDashes _ h2
    have e0 : (⟨cl⟩ : String).data = cl := rfl
    have h1 : pyStripL cl = cl := pyStripL_fix cl hmem
    have h2 : pyLower cl = cl := pyLower_fix cl hmem
    have h3 : collapseNonSlug cl = cl := collapseNonSlug_id cl hmem hdd
    have h4 : stripDashes cl = cl := stripDashes_fix cl hhead hlast
    simp only [_normalize_slug, e0, h1, h2, h3, h4]
    rw [if_neg he]

/-- C8 witness: idempotence evaluated at a concrete brand whose slug
differs from the input. -/
theorem slug_idempotent_witness :
    _normalize_slug "My Brand!" = .ok "my-brand" ∧
    _normalize_slug "my-brand" = .ok "my-brand" :=
  ⟨by decide, slug_idempotent "My Brand!" "my-brand" (by decide)⟩
